import Mathlib

/-!
Verification of the TRR (Trap-Redshift-Replication) formula layer against
its specification.  The Python source is shallowly embedded over exact real
arithmetic: `np.clip` becomes `npClip`, `np.exp` becomes `Real.exp`, and the
branching structure of each function is reproduced literally.
-/

open Classical

namespace TRR

/-- `np.clip(x, lo, hi)`: equivalent to `min (max x lo) hi`. -/
noncomputable def npClip (x lo hi : ℝ) : ℝ := min (max x lo) hi

/-- Container for TRR experimental parameters (src/src/physics_engine.py,
class `TRRParams`).  Cycle count is an integer in the source; all other
fields are scalars. -/
structure TRRParams where
  nu_emit : ℝ
  fm : ℝ
  n_cycles : ℤ
  P_in : ℝ
  P_trap : ℝ
  alpha_loss : ℝ
  L_eff : ℝ
  sigma_laser : ℝ
  sigma_mod : ℝ
  sigma_trap : ℝ
  coherence_baseline : ℝ

/-- `coupling_efficiency` (src/src/physics_engine.py, lines 66-81):
returns 0 when `P_in <= 0`, otherwise
`clip((P_trap / P_in) * exp(-alpha_loss * L_eff), 0, 1)`. -/
noncomputable def coupling_efficiency (p : TRRParams) : ℝ :=
  if p.P_in ≤ 0 then 0
  else npClip ((p.P_trap / p.P_in) * Real.exp (-p.alpha_loss * p.L_eff)) 0 1

/-- `escape_probability` (src/src/physics_engine.py, lines 103-120):
`score = 2z + (1 - nc) + (1 if Tc < Tc_threshold else 0)`;
result `= 1 / (1 + exp(-5 * (score - 1)))`. -/
noncomputable def escape_probability (z nc Tc Tc_threshold : ℝ) : ℝ :=
  let score := 2 * z + (1 - nc) + (if Tc < Tc_threshold then 1 else 0)
  1 / (1 + Real.exp (-5 * (score - 1)))

/-- `fabric_lock_active` (src/src/physics_engine.py, lines 123-147):
`lambda_redshifted = lambda_emit * (1 + z)`;
`Lambda_fabric = lambda_redshifted / trap_size`; lock iff
`Lambda_fabric > 1.0`. -/
def fabric_lock_active (z lambda_emit trap_size : ℝ) : Prop :=
  let lambda_redshifted := lambda_emit * (1 + z)
  let Lambda_fabric := lambda_redshifted / trap_size
  Lambda_fabric > 1

/-- `compute_lambda_fabric` (src/src/physics_engine.py, lines 150-167):
`lambda_emit * (1 + z) / trap_size`. -/
noncomputable def compute_lambda_fabric (z lambda_emit trap_size : ℝ) : ℝ :=
  let lambda_redshifted := lambda_emit * (1 + z)
  lambda_redshifted / trap_size

/-- `identity_persistence` (src/src/physics_engine.py, lines 170-207):
`0.95` when the fabric lock is active, otherwise
`1.0 - 0.05 * Lambda_fabric`. -/
noncomputable def identity_persistence (z lambda_emit trap_size : ℝ) : ℝ :=
  if fabric_lock_active z lambda_emit trap_size then 0.95
  else 1 - 0.05 * compute_lambda_fabric z lambda_emit trap_size

/-- Default emission wavelength, 780 nm (780e-9 m). -/
noncomputable def lambda_emit_default : ℝ := 780e-9

/-- Default trap confinement size, 790 nm (790e-9 m). -/
noncomputable def trap_size_default : ℝ := 790e-9

/-- Deterministic pair-probability part of `simulate_hawking_pairs`
(src/qiskit_simulation/trr_qiskit_simulation.py, lines 66-97):
`base_prob = 0.01`; `instability = exp(15 * (z - wall_z))`;
`pair_prob = clip(base_prob + instability * (1 - nc), 0, 1)`.
The Poisson draw that follows in the source touches the global random
state and is not part of this deterministic value. -/
noncomputable def simulate_hawking_pairs_prob (z nc wall_z : ℝ) : ℝ :=
  let base_prob := 0.01
  let instability := Real.exp (15 * (z - wall_z))
  npClip (base_prob + instability * (1 - nc)) 0 1

/-- Modelled from the spec: the pair-probability formula as §4.8 words it,
`clip(0.01 + exp(15 × (z − wall)) × (1 − nc), 0, 1)`, for comparison with
the source-derived `simulate_hawking_pairs_prob`. -/
noncomputable def pairProbSpec (z nc wall : ℝ) : ℝ :=
  npClip (0.01 + Real.exp (15 * (z - wall)) * (1 - nc)) 0 1

/-- Modelled from the spec: the coupling-efficiency contract as §4.2 words
it, for comparison with the source-derived `coupling_efficiency`. -/
noncomputable def couplingEfficiencySpec (p : TRRParams) : ℝ :=
  if p.P_in ≤ 0 then 0
  else npClip ((p.P_trap / p.P_in) * Real.exp (-p.alpha_loss * p.L_eff)) 0 1

lemma npClip_mem_Icc (x : ℝ) : npClip x 0 1 ∈ Set.Icc (0 : ℝ) 1 := by
  unfold npClip
  constructor
  · exact le_min (le_max_right x 0) zero_le_one
  · exact min_le_right _ _

lemma lambda_fabric_mono (lambda_emit trap_size : ℝ) (hle : 0 < lambda_emit)
    (hts : 0 < trap_size) {z1 z2 : ℝ} (h : z1 ≤ z2) :
    compute_lambda_fabric z1 lambda_emit trap_size ≤
      compute_lambda_fabric z2 lambda_emit trap_size := by
  unfold compute_lambda_fabric
  have hmul : lambda_emit * (1 + z1) ≤ lambda_emit * (1 + z2) :=
    mul_le_mul_of_nonneg_left (by linarith) hle.le
  exact div_le_div_of_nonneg_right hmul hts.le

end TRR

namespace TRR

/-- C2: `fabric_lock_active(z, lambda_emit, trap_size)` holds if and only if
`compute_lambda_fabric(z, lambda_emit, trap_size)` is strictly greater
than 1.0, for every z and every wavelength/trap-size pair. -/
theorem fabric_lock_iff_lambda_fabric_gt_one (z lambda_emit trap_size : ℝ) :
    fabric_lock_active z lambda_emit trap_size ↔
      compute_lambda_fabric z lambda_emit trap_size > 1 :=
  Iff.rfl

/-- C1: for every z and positive emission wavelength and trap size,
`identity_persistence` equals exactly 0.95 whenever
`Lambda_fabric = lambda_emit * (1 + z) / trap_size` is at least 1,
independent of how far past the threshold z lies. -/
theorem identity_persistence_at_or_above_threshold
    (z lambda_emit trap_size : ℝ) (hle : 0 < lambda_emit) (hts : 0 < trap_size)
    (h : 1 ≤ compute_lambda_fabric z lambda_emit trap_size) :
    identity_persistence z lambda_emit trap_size = 0.95 := by
  unfold identity_persistence
  by_cases hlock : fabric_lock_active z lambda_emit trap_size
  · rw [if_pos hlock]
  · rw [if_neg hlock]
    have hle1 : compute_lambda_fabric z lambda_emit trap_size ≤ 1 := by
      have := hlock
      unfold fabric_lock_active at this
      unfold compute_lambda_fabric
      simpa using not_lt.mp this
    have heq : compute_lambda_fabric z lambda_emit trap_size = 1 :=
      le_antisymm hle1 h
    rw [heq]; norm_num

/-- Witness for C1 at z = 1 with the default wavelength (780 nm) and trap
size (790 nm), where Lambda_fabric = 1560/790 exceeds 1. -/
theorem identity_persistence_at_or_above_threshold_witness :
    0 < lambda_emit_default ∧ 0 < trap_size_default ∧
      1 ≤ compute_lambda_fabric 1 lambda_emit_default trap_size_default ∧
      identity_persistence 1 lambda_emit_default trap_size_default = 0.95 := by
  have h1 : 0 < lambda_emit_default := by
    unfold lambda_emit_default; norm_num
  have h2 : 0 < trap_size_default := by
    unfold trap_size_default; norm_num
  have h3 : 1 ≤ compute_lambda_fabric 1 lambda_emit_default trap_size_default := by
    unfold compute_lambda_fabric lambda_emit_default trap_size_default
    norm_num
  exact ⟨h1, h2, h3,
    identity_persistence_at_or_above_threshold 1 _ _ h1 h2 h3⟩

/-- C6: for positive emission wavelength and trap size,
`identity_persistence` is monotonically non-increasing in z on the region
strictly below the lock threshold (`Lambda_fabric < 1`). -/
theorem identity_persistence_antitone_below_threshold
    (lambda_emit trap_size z1 z2 : ℝ)
    (hle : 0 < lambda_emit) (hts : 0 < trap_size) (h12 : z1 ≤ z2)
    (h1 : compute_lambda_fabric z1 lambda_emit trap_size < 1)
    (h2 : compute_lambda_fabric z2 lambda_emit trap_size < 1) :
    identity_persistence z2 lambda_emit trap_size ≤
      identity_persistence z1 lambda_emit trap_size := by
  have hmono := lambda_fabric_mono lambda_emit trap_size hle hts h12
  have hn1 : ¬ fabric_lock_active z1 lambda_emit trap_size := by
    unfold fabric_lock_active
    unfold compute_lambda_fabric at h1
    simpa using le_of_lt h1
  have hn2 : ¬ fabric_lock_active z2 lambda_emit trap_size := by
    unfold fabric_lock_active
    unfold compute_lambda_fabric at h2
    simpa using le_of_lt h2
  unfold identity_persistence
  rw [if_neg hn1, if_neg hn2]
  nlinarith [hmono]

/-- Witness for C6 at z1 = 0, z2 = 1/100 with the default wavelength and
trap size, both strictly below the lock threshold. -/
theorem identity_persistence_antitone_below_threshold_witness :
    0 < lambda_emit_default ∧ 0 < trap_size_default ∧ (0 : ℝ) ≤ 1/100 ∧
      compute_lambda_fabric 0 lambda_emit_default trap_size_default < 1 ∧
      compute_lambda_fabric (1/100) lambda_emit_default trap_size_default < 1 ∧
      identity_persistence (1/100) lambda_emit_default trap_size_default ≤
        identity_persistence 0 lambda_emit_default trap_size_default := by
  have h1 : 0 < lambda_emit_default := by
    unfold lambda_emit_default; norm_num
  have h2 : 0 < trap_size_default := by
    unfold trap_size_default; norm_num
  have h12 : (0 : ℝ) ≤ 1/100 := by norm_num
  have hb1 : compute_lambda_fabric 0 lambda_emit_default trap_size_default < 1 := by
    unfold compute_lambda_fabric lambda_emit_default trap_size_default
    norm_num
  have hb2 : compute_lambda_fabric (1/100) lambda_emit_default trap_size_default < 1 := by
    unfold compute_lambda_fabric lambda_emit_default trap_size_default
    norm_num
  exact ⟨h1, h2, h12, hb1, hb2,
    identity_persistence_antitone_below_threshold _ _ _ _ h1 h2 h12 hb1 hb2⟩

/-- C7 counterexample: at z = -2 with the default (positive) wavelength and
trap size, `compute_lambda_fabric` is negative (not strictly positive) and
`identity_persistence` exceeds 1 (not in [0,1]), refuting the claim that
these invariants hold for every z. -/
theorem lambda_fabric_invariant_counterexample :
    0 < lambda_emit_default ∧ 0 < trap_size_default ∧
      ¬ (0 < compute_lambda_fabric (-2) lambda_emit_default trap_size_default ∧
         identity_persistence (-2) lambda_emit_default trap_size_default ∈
           Set.Icc (0 : ℝ) 1) := by
  refine ⟨by unfold lambda_emit_default; norm_num,
    by unfold trap_size_default; norm_num, ?_⟩
  rintro ⟨hpos, -⟩
  unfold compute_lambda_fabric lambda_emit_default trap_size_default at hpos
  norm_num at hpos

/-- C7 amended: for every z with z > -1 (so the redshifted wavelength is
positive) and positive emission wavelength and trap size,
`compute_lambda_fabric` is strictly positive and `identity_persistence`
lies in [0,1]. -/
theorem lambda_fabric_pos_and_identity_in_unit
    (z lambda_emit trap_size : ℝ)
    (hle : 0 < lambda_emit) (hts : 0 < trap_size) (hz : -1 < z) :
    0 < compute_lambda_fabric z lambda_emit trap_size ∧
      identity_persistence z lambda_emit trap_size ∈ Set.Icc (0 : ℝ) 1 := by
  have hpos : 0 < compute_lambda_fabric z lambda_emit trap_size := by
    unfold compute_lambda_fabric
    exact div_pos (mul_pos hle (by linarith)) hts
  refine ⟨hpos, ?_⟩
  unfold identity_persistence
  by_cases hlock : fabric_lock_active z lambda_emit trap_size
  · rw [if_pos hlock]; constructor <;> norm_num
  · rw [if_neg hlock]
    have hle1 : compute_lambda_fabric z lambda_emit trap_size ≤ 1 := by
      have := hlock
      unfold fabric_lock_active at this
      unfold compute_lambda_fabric
      simpa using not_lt.mp this
    constructor
    · nlinarith [hpos, hle1]
    · nlinarith [hpos]

/-- Witness for the amended C7 at z = 0 with the default wavelength and
trap size. -/
theorem lambda_fabric_pos_and_identity_in_unit_witness :
    0 < lambda_emit_default ∧ 0 < trap_size_default ∧ (-1 : ℝ) < 0 ∧
      (0 < compute_lambda_fabric 0 lambda_emit_default trap_size_default ∧
       identity_persistence 0 lambda_emit_default trap_size_default ∈
         Set.Icc (0 : ℝ) 1) := by
  have h1 : 0 < lambda_emit_default := by
    unfold lambda_emit_default; norm_num
  have h2 : 0 < trap_size_default := by
    unfold trap_size_default; norm_num
  have h3 : (-1 : ℝ) < 0 := by norm_num
  exact ⟨h1, h2, h3, lambda_fabric_pos_and_identity_in_unit 0 _ _ h1 h2 h3⟩

/-- C3: for every ParameterSet, `coupling_efficiency` lies in [0,1], equals
0 when `P_in <= 0`, and otherwise equals the clipped power-ratio formula
(stated via `couplingEfficiencySpec`, the formula as the spec words it). -/
theorem coupling_efficiency_contract (p : TRRParams) :
    coupling_efficiency p ∈ Set.Icc (0 : ℝ) 1 ∧
      coupling_efficiency p = couplingEfficiencySpec p ∧
      (p.P_in ≤ 0 → coupling_efficiency p = 0) := by
  refine ⟨?_, rfl, ?_⟩
  · unfold coupling_efficiency
    by_cases h : p.P_in ≤ 0
    · rw [if_pos h]
      exact Set.mem_Icc.mpr ⟨le_refl 0, zero_le_one⟩
    · rw [if_neg h]
      exact npClip_mem_Icc _
  · intro h
    unfold coupling_efficiency
    rw [if_pos h]

/-- Concrete parameter set with non-positive input power, used to witness
the `P_in <= 0` branch of the coupling-efficiency contract. -/
noncomputable def paramsNegPin : TRRParams :=
  ⟨3.84e14, 5e9, 1000, -1, 0.006, 2, 0.05, 1e6, 2e9, 5e8, 1e-3⟩

/-- Witness for C3 at a parameter set with `P_in = -1`. -/
theorem coupling_efficiency_contract_witness :
    paramsNegPin.P_in ≤ 0 ∧
      coupling_efficiency paramsNegPin ∈ Set.Icc (0 : ℝ) 1 ∧
      coupling_efficiency paramsNegPin = 0 := by
  have hp : paramsNegPin.P_in ≤ 0 := by
    unfold paramsNegPin
    norm_num
  exact ⟨hp, (coupling_efficiency_contract paramsNegPin).1,
    (coupling_efficiency_contract paramsNegPin).2.2 hp⟩

/-- C4: for every z, nc and wall threshold, the deterministic pair
probability of the pair-event model equals
`clip(0.01 + exp(15 * (z - wall)) * (1 - nc), 0, 1)` (stated via
`pairProbSpec`, the formula as the spec words it) and lies in [0,1]. -/
theorem pair_prob_eq_spec_and_mem_unit (z nc wall : ℝ) :
    simulate_hawking_pairs_prob z nc wall = pairProbSpec z nc wall ∧
      simulate_hawking_pairs_prob z nc wall ∈ Set.Icc (0 : ℝ) 1 :=
  ⟨rfl, npClip_mem_Icc _⟩

/-- C5: holding nc, Tc and the coherence threshold fixed,
`escape_probability` is monotonically non-decreasing in z. -/
theorem escape_probability_mono_z (nc Tc Tc_threshold z1 z2 : ℝ)
    (h : z1 ≤ z2) :
    escape_probability z1 nc Tc Tc_threshold ≤
      escape_probability z2 nc Tc Tc_threshold := by
  simp only [escape_probability]
  set i : ℝ := (if Tc < Tc_threshold then (1 : ℝ) else 0) with hi
  have hexp :
      Real.exp (-5 * (2 * z2 + (1 - nc) + i - 1)) ≤
        Real.exp (-5 * (2 * z1 + (1 - nc) + i - 1)) :=
    Real.exp_le_exp.mpr (by linarith)
  have hpos : (0 : ℝ) < 1 + Real.exp (-5 * (2 * z2 + (1 - nc) + i - 1)) := by
    positivity
  apply one_div_le_one_div_of_le hpos
  linarith

/-- Witness for C5 at z1 = 0, z2 = 1 with nc = 1/2, Tc = 1 and the default
coherence threshold 1e-6. -/
theorem escape_probability_mono_z_witness :
    (0 : ℝ) ≤ 1 ∧
      escape_probability 0 (1/2) 1 (1/1000000) ≤
        escape_probability 1 (1/2) 1 (1/1000000) :=
  ⟨by norm_num, escape_probability_mono_z (1/2) 1 (1/1000000) 0 1 (by norm_num)⟩

/-- C10: over exact real arithmetic, `escape_probability` always lies
strictly inside the open interval (0,1): a logistic of a finite score never
reaches 0 or 1. -/
theorem escape_probability_mem_Ioo (z nc Tc Tc_threshold : ℝ) :
    escape_probability z nc Tc Tc_threshold ∈ Set.Ioo (0 : ℝ) 1 := by
  unfold escape_probability
  have hE := Real.exp_pos
    (-5 * (2 * z + (1 - nc) + (if Tc < Tc_threshold then 1 else 0) - 1))
  constructor
  · positivity
  · rw [div_lt_one (by linarith)]
    linarith

end TRR
